import Mathlib

set_option maxRecDepth 4000

/-! SHA-256 core, modelled from the spec (FIPS 180-4 / RFC 6234). -/

def rotr (n x : Nat) : Nat := (x >>> n) + (x % 2 ^ n) * 2 ^ (32 - n)

def shaCh (x y z : Nat) : Nat := Nat.xor (Nat.land x y) (Nat.land (Nat.xor x 4294967295) z)

def shaMaj (x y z : Nat) : Nat :=
  Nat.xor (Nat.xor (Nat.land x y) (Nat.land x z)) (Nat.land y z)

def bigSigma0 (x : Nat) : Nat := Nat.xor (Nat.xor (rotr 2 x) (rotr 13 x)) (rotr 22 x)
def bigSigma1 (x : Nat) : Nat := Nat.xor (Nat.xor (rotr 6 x) (rotr 11 x)) (rotr 25 x)
def smallSigma0 (x : Nat) : Nat := Nat.xor (Nat.xor (rotr 7 x) (rotr 18 x)) (x >>> 3)
def smallSigma1 (x : Nat) : Nat := Nat.xor (Nat.xor (rotr 17 x) (rotr 19 x)) (x >>> 10)

def sha256K : List Nat :=
  [1116352408, 1899447441, 3049323471, 3921009573, 961987163, 1508970993,
   2453635748, 2870763221, 3624381080, 310598401, 607225278, 1426881987,
   1925078388, 2162078206, 2614888103, 3248222580, 3835390401, 4022224774,
   264347078, 604807628, 770255983, 1249150122, 1555081692, 1996064986,
   2554220882, 2821834349, 2952996808, 3210313671, 3336571891, 3584528711,
   113926993, 338241895, 666307205, 773529912, 1294757372, 1396182291,
   1695183700, 1986661051, 2177026350, 2456956037, 2730485921, 2820302411,
   3259730800, 3345764771, 3516065817, 3600352804, 4094571909, 275423344,
   430227734, 506948616, 659060556, 883997877, 958139571, 1322822218,
   1537002063, 1747873779, 1955562222, 2024104815, 2227730452, 2361852424,
   2428436474, 2756734187, 3204031479, 3329325298]

/-- The eight 32-bit working variables / hash value words of SHA-256. -/
structure SHA256Vec where
  a : Nat
  b : Nat
  c : Nat
  d : Nat
  e : Nat
  f : Nat
  g : Nat
  h : Nat
deriving DecidableEq

def sha256H0 : SHA256Vec :=
  ⟨1779033703, 3144134277, 1013904242, 2773480762,
   1359893119, 2600822924, 528734635, 1541459225⟩

def bytesToWords : List Nat → List Nat
  | b0 :: b1 :: b2 :: b3 :: rest =>
      (((b0 * 256 + b1) * 256 + b2) * 256 + b3) :: bytesToWords rest
  | _ => []

def be32 (n : Nat) : List Nat :=
  [n / 2 ^ 24 % 256, n / 2 ^ 16 % 256, n / 2 ^ 8 % 256, n % 256]

def be64 (n : Nat) : List Nat :=
  [n / 2 ^ 56 % 256, n / 2 ^ 48 % 256, n / 2 ^ 40 % 256, n / 2 ^ 32 % 256,
   n / 2 ^ 24 % 256, n / 2 ^ 16 % 256, n / 2 ^ 8 % 256, n % 256]

/-- Pad a byte message per FIPS 180-4: append 0x80, zeros to 56 mod 64, and
the 64-bit big-endian bit length. -/
def sha256Pad (msg : List Nat) : List Nat :=
  msg ++ [0x80] ++ List.replicate ((119 - msg.length % 64) % 64) 0 ++ be64 (8 * msg.length)

def iterate (f : α → α) : Nat → α → α
  | 0, x => x
  | n + 1, x => iterate f n (f x)

def scheduleStep (w : List Nat) : List Nat :=
  let n := w.length
  w ++ [(smallSigma1 (w.getD (n - 2) 0) + w.getD (n - 7) 0 +
         smallSigma0 (w.getD (n - 15) 0) + w.getD (n - 16) 0) % 2 ^ 32]

/-- Expand a 16-word block into the 64-word message schedule. -/
def schedule (w : List Nat) : List Nat := iterate scheduleStep 48 w

def shaRound (v : SHA256Vec) (kw : Nat) : SHA256Vec :=
  let t1 := (v.h + bigSigma1 v.e + shaCh v.e v.f v.g + kw) % 2 ^ 32
  let t2 := (bigSigma0 v.a + shaMaj v.a v.b v.c) % 2 ^ 32
  ⟨(t1 + t2) % 2 ^ 32, v.a, v.b, v.c, (v.d + t1) % 2 ^ 32, v.e, v.f, v.g⟩

/-- One SHA-256 compression: process a 16-word block into the running hash. -/
def sha256Process (v : SHA256Vec) (block : List Nat) : SHA256Vec :=
  let w := schedule block
  let r := (List.zipWith (fun k x => (k + x) % 2 ^ 32) sha256K w).foldl shaRound v
  ⟨(v.a + r.a) % 2 ^ 32, (v.b + r.b) % 2 ^ 32, (v.c + r.c) % 2 ^ 32,
   (v.d + r.d) % 2 ^ 32, (v.e + r.e) % 2 ^ 32, (v.f + r.f) % 2 ^ 32,
   (v.g + r.g) % 2 ^ 32, (v.h + r.h) % 2 ^ 32⟩

/-- Split padded bytes into 16-word blocks; fuel is the block count. -/
def toBlocks : Nat → List Nat → List (List Nat)
  | 0, _ => []
  | fuel + 1, l => bytesToWords (l.take 64) :: toBlocks fuel (l.drop 64)

/-- Modelled from the spec: the external hash primitive is SHA-256
(`sb_sha256`, not part of this module); digest of a byte sequence. -/
def sha256 (msg : List Nat) : List Nat :=
  let padded := sha256Pad msg
  let v := (toBlocks (padded.length / 64) padded).foldl sha256Process sha256H0
  be32 v.a ++ be32 v.b ++ be32 v.c ++ be32 v.d ++
  be32 v.e ++ be32 v.f ++ be32 v.g ++ be32 v.h

/-! The Hash Engine contract (spec §6): `sb_sha256_state_t` is an opaque
running state with init/update/finish.  Modelled from the spec: the engine
state is the sequence of bytes absorbed since the last init, and finish
produces the SHA-256 digest of the absorbed bytes. -/

/-- Modelled from the spec: the external `sb_sha256_state_t` engine state,
tracked as the bytes absorbed since the last `sb_sha256_init`. -/
structure sb_sha256_state_t where
  absorbed : List Nat
deriving DecidableEq

/-- Modelled from the spec: `engine.init()` resets to the empty-input state. -/
def sb_sha256_init : sb_sha256_state_t := ⟨[]⟩

/-- Modelled from the spec: `engine.update(bytes)` appends bytes to the
pending input. -/
def sb_sha256_update (s : sb_sha256_state_t) (input : List Nat) : sb_sha256_state_t :=
  ⟨s.absorbed ++ input⟩

/-- Modelled from the spec: `engine.finish()` finalizes and yields the D-byte
digest of everything absorbed. -/
def sb_sha256_finish (s : sb_sha256_state_t) : List Nat := sha256 s.absorbed

def SB_SHA256_SIZE : Nat := 32
def SB_SHA256_BLOCK_SIZE : Nat := 64

/-- `sb_hmac_sha256_state_t`: the embedded engine plus the B-byte key buffer
(spec §3; declared in `sb_hmac_sha256.h`).  The key buffer is a fixed 64-byte
array, modelled as a list kept at length 64 by every operation. -/
structure sb_hmac_sha256_state_t where
  sha : sb_sha256_state_t
  key : List Nat
deriving DecidableEq

/-- Writing `data` into a byte buffer at offset `off`, as a C `memcpy`/store
to `&buf[off]` does: bytes before `off` and from `off + data.length` on are
untouched. -/
def writeBytes (buf : List Nat) (off : Nat) (data : List Nat) : List Nat :=
  buf.take off ++ data ++ buf.drop (off + data.length)

def ipad : Nat := 0x36
def opad : Nat := 0x5C

/-- `sb_hmac_sha256_key_pad`: XOR every byte of the B-byte key buffer with
the pad constant, in place. -/
def sb_hmac_sha256_key_pad (hmac : sb_hmac_sha256_state_t) (pad : Nat) :
    sb_hmac_sha256_state_t :=
  { hmac with key := hmac.key.map fun b => Nat.xor b pad }

/-- `sb_hmac_sha256_reinit`: inner-pad the key, feed the padded B-byte buffer
into a freshly initialized engine, then un-pad the key. -/
def sb_hmac_sha256_reinit (hmac : sb_hmac_sha256_state_t) : sb_hmac_sha256_state_t :=
  let h1 := sb_hmac_sha256_key_pad hmac ipad
  let h2 := { h1 with
    sha := sb_sha256_update sb_sha256_init (h1.key.take SB_SHA256_BLOCK_SIZE) }
  sb_hmac_sha256_key_pad h2 ipad

/-- `sb_hmac_sha256_init`: memset the whole state to zero (discarding `prior`),
derive the key buffer (hash the key if longer than one block, else copy it),
then reinit.  `prior` is the arbitrary prior content of the caller's state
object, erased by the `memset`. -/
def sb_hmac_sha256_init (prior : sb_hmac_sha256_state_t) (key : List Nat) :
    sb_hmac_sha256_state_t :=
  let _ := prior
  let hmac : sb_hmac_sha256_state_t :=
    ⟨⟨[]⟩, List.replicate SB_SHA256_BLOCK_SIZE 0⟩
  let hmac :=
    if SB_SHA256_BLOCK_SIZE < key.length then
      let sha1 := sb_sha256_update sb_sha256_init key
      { hmac with sha := sha1, key := writeBytes hmac.key 0 (sb_sha256_finish sha1) }
    else
      { hmac with key := writeBytes hmac.key 0 key }
  sb_hmac_sha256_reinit hmac

/-- `sb_hmac_sha256_update`: pass-through into the embedded engine. -/
def sb_hmac_sha256_update (hmac : sb_hmac_sha256_state_t) (input : List Nat) :
    sb_hmac_sha256_state_t :=
  { hmac with sha := sb_sha256_update hmac.sha input }

/-- `sb_hmac_sha256_finish`: finalize the inner hash into the caller's output
buffer (used as scratch), outer-pad the key, hash padded key ‖ inner digest
into the output, un-pad the key.  Returns the final state and the output
buffer's content. -/
def sb_hmac_sha256_finish (hmac : sb_hmac_sha256_state_t) (output : List Nat) :
    sb_hmac_sha256_state_t × List Nat :=
  let out1 := writeBytes output 0 (sb_sha256_finish hmac.sha)
  let h1 := sb_hmac_sha256_key_pad hmac opad
  let sha1 := sb_sha256_update sb_sha256_init (h1.key.take SB_SHA256_BLOCK_SIZE)
  let sha2 := sb_sha256_update sha1 (out1.take SB_SHA256_SIZE)
  let out2 := writeBytes out1 0 (sb_sha256_finish sha2)
  let h2 := sb_hmac_sha256_key_pad { h1 with sha := sha2 } opad
  (h2, out2)

/-- `sb_hmac_sha256_finish_to_key`: outer-pad the key, finalize the inner hash
into the key buffer's second half, hash first half ‖ opad-bytes ‖ inner digest,
store the result as the new key (second half zeroed), and reinit. -/
def sb_hmac_sha256_finish_to_key (hmac : sb_hmac_sha256_state_t) :
    sb_hmac_sha256_state_t :=
  let h1 := sb_hmac_sha256_key_pad hmac opad
  let k2 := writeBytes h1.key SB_SHA256_SIZE (sb_sha256_finish h1.sha)
  let sha1 := sb_sha256_update sb_sha256_init (k2.take SB_SHA256_SIZE)
  let k3 := writeBytes k2 0 (List.replicate SB_SHA256_SIZE opad)
  let sha2 := sb_sha256_update sha1 (k3.take SB_SHA256_SIZE)
  let sha3 := sb_sha256_update sha2 ((k3.drop SB_SHA256_SIZE).take SB_SHA256_SIZE)
  let k4 := writeBytes k3 0 (sb_sha256_finish sha3)
  let k5 := writeBytes k4 SB_SHA256_SIZE (List.replicate SB_SHA256_SIZE 0)
  sb_hmac_sha256_reinit { sha := sha3, key := k5 }

/-- `sb_hmac_sha256`: one-shot init + update + finish. -/
def sb_hmac_sha256 (prior : sb_hmac_sha256_state_t) (key input output : List Nat) :
    sb_hmac_sha256_state_t × List Nat :=
  let h1 := sb_hmac_sha256_init prior key
  let h2 := sb_hmac_sha256_update h1 input
  sb_hmac_sha256_finish h2 output

def zeroState : sb_hmac_sha256_state_t := ⟨⟨[]⟩, List.replicate 64 0⟩

/-- RFC 4231 test key 1: 20 bytes of 0x0b. -/
def TEST_K1 : List Nat := List.replicate 20 0x0b

/-- RFC 4231 test message 1: ASCII "Hi There". -/
def TEST_M1 : List Nat := [0x48, 0x69, 0x20, 0x54, 0x68, 0x65, 0x72, 0x65]

/-- RFC 4231 expected MAC 1. -/
def TEST_H1 : List Nat :=
  [0xb0, 0x34, 0x4c, 0x61, 0xd8, 0xdb, 0x38, 0x53, 0x5c, 0xa8, 0xaf, 0xce,
   0xaf, 0x0b, 0xf1, 0x2b,
   0x88, 0x1d, 0xc2, 0x00, 0xc9, 0x83, 0x3d, 0xa7, 0x26, 0xe9, 0x37, 0x6c,
   0x2e, 0x32, 0xcf, 0xf7]

/-- RFC 4231 test key 2: ASCII "Jefe". -/
def TEST_K2 : List Nat := [0x4a, 0x65, 0x66, 0x65]

/-- RFC 4231 test message 2: ASCII "what do ya want for nothing?". -/
def TEST_M2 : List Nat :=
  [0x77, 0x68, 0x61, 0x74, 0x20, 0x64, 0x6f, 0x20, 0x79, 0x61, 0x20, 0x77,
   0x61, 0x6e, 0x74, 0x20,
   0x66, 0x6f, 0x72, 0x20, 0x6e, 0x6f, 0x74, 0x68, 0x69, 0x6e, 0x67, 0x3f]

/-- RFC 4231 expected MAC 2. -/
def TEST_H2 : List Nat :=
  [0x5b, 0xdc, 0xc1, 0x46, 0xbf, 0x60, 0x75, 0x4e, 0x6a, 0x04, 0x24, 0x26,
   0x08, 0x95, 0x75, 0xc7,
   0x5a, 0x00, 0x3f, 0x08, 0x9d, 0x27, 0x39, 0x83, 0x9d, 0xec, 0x58, 0xb9,
   0x64, 0xec, 0x38, 0x43]

/-- The key buffer laid down by `sb_hmac_sha256_init` before the final
`reinit`: the key hashed when longer than one block, else copied, in both
cases zero-extended to the 64-byte buffer. -/
def hmacKeyBuf (key : List Nat) : List Nat :=
  if SB_SHA256_BLOCK_SIZE < key.length then
    sha256 key ++ List.replicate 32 0
  else
    key ++ List.replicate (64 - key.length) 0

/-! ### Basic lemmas about the embedding -/

theorem sha256_length (m : List Nat) : (sha256 m).length = 32 := by
  simp [sha256, be32]

theorem sb_sha256_finish_length (s : sb_sha256_state_t) :
    (sb_sha256_finish s).length = 32 := sha256_length _

theorem key_pad_sha (h : sb_hmac_sha256_state_t) (p : Nat) :
    (sb_hmac_sha256_key_pad h p).sha = h.sha := rfl

theorem xor_xor_self (b p : Nat) : Nat.xor (Nat.xor b p) p = b :=
  Nat.xor_cancel_right p b

theorem key_pad_key_pad (h : sb_hmac_sha256_state_t) (p : Nat) :
    sb_hmac_sha256_key_pad (sb_hmac_sha256_key_pad h p) p = h := by
  simp [sb_hmac_sha256_key_pad, List.map_map, Function.comp_def, xor_xor_self]

theorem reinit_eq (h : sb_hmac_sha256_state_t) :
    sb_hmac_sha256_reinit h =
      ⟨⟨(h.key.map fun b => Nat.xor b ipad).take 64⟩, h.key⟩ := by
  simp [sb_hmac_sha256_reinit, sb_hmac_sha256_key_pad, sb_sha256_update,
    sb_sha256_init, SB_SHA256_BLOCK_SIZE, List.map_map, Function.comp_def,
    xor_xor_self]

theorem reinit_key (h : sb_hmac_sha256_state_t) :
    (sb_hmac_sha256_reinit h).key = h.key := by
  rw [reinit_eq]


theorem hmacKeyBuf_length (key : List Nat) : (hmacKeyBuf key).length = 64 := by
  by_cases hl : SB_SHA256_BLOCK_SIZE < key.length
  · simp [hmacKeyBuf, hl, sha256_length]
  · have hle : key.length ≤ 64 := by simpa [SB_SHA256_BLOCK_SIZE] using hl
    simp only [hmacKeyBuf, hl, if_false, List.length_append, List.length_replicate]
    omega

theorem writeBytes_replicate_zero (data : List Nat) :
    writeBytes (List.replicate 64 0) 0 data =
      data ++ List.replicate (64 - data.length) 0 := by
  simp only [writeBytes, List.take_zero, List.nil_append, Nat.zero_add,
    List.drop_replicate]

theorem init_eq (p : sb_hmac_sha256_state_t) (key : List Nat) :
    sb_hmac_sha256_init p key =
      ⟨⟨((hmacKeyBuf key).map fun b => Nat.xor b ipad).take 64⟩, hmacKeyBuf key⟩ := by
  by_cases hl : 64 < key.length
  · simp only [sb_hmac_sha256_init, hmacKeyBuf, SB_SHA256_BLOCK_SIZE, hl, if_true,
      reinit_eq]
    rw [show sb_sha256_finish (sb_sha256_update sb_sha256_init key) = sha256 key from
        by simp [sb_sha256_finish, sb_sha256_update, sb_sha256_init],
      writeBytes_replicate_zero, sha256_length]
  · simp only [sb_hmac_sha256_init, hmacKeyBuf, SB_SHA256_BLOCK_SIZE, hl, if_false,
      reinit_eq]
    rw [writeBytes_replicate_zero]

theorem update_key (h : sb_hmac_sha256_state_t) (input : List Nat) :
    (sb_hmac_sha256_update h input).key = h.key := rfl

theorem update_update (h : sb_hmac_sha256_state_t) (m1 m2 : List Nat) :
    sb_hmac_sha256_update (sb_hmac_sha256_update h m1) m2 =
      sb_hmac_sha256_update h (m1 ++ m2) := by
  simp [sb_hmac_sha256_update, sb_sha256_update, List.append_assoc]

theorem foldl_update (h : sb_hmac_sha256_state_t) (chunks : List (List Nat)) :
    chunks.foldl sb_hmac_sha256_update h = sb_hmac_sha256_update h chunks.flatten := by
  induction chunks generalizing h with
  | nil => simp [sb_hmac_sha256_update, sb_sha256_update]
  | cons c cs ih =>
    simp only [List.foldl_cons, List.flatten_cons]
    rw [ih, update_update]

theorem finish_eq (h : sb_hmac_sha256_state_t) (out : List Nat) :
    sb_hmac_sha256_finish h out =
      (⟨⟨((h.key.map fun b => Nat.xor b opad).take 64) ++ sb_sha256_finish h.sha⟩, h.key⟩,
       sb_sha256_finish
         ⟨((h.key.map fun b => Nat.xor b opad).take 64) ++ sb_sha256_finish h.sha⟩ ++
         out.drop 32) := by
  unfold sb_hmac_sha256_finish
  simp only [writeBytes, List.take_zero, List.nil_append, Nat.zero_add,
    sb_sha256_finish_length, sb_hmac_sha256_key_pad, key_pad_sha,
    sb_sha256_update, sb_sha256_init, SB_SHA256_BLOCK_SIZE, SB_SHA256_SIZE]
  simp only [List.take_left' (sb_sha256_finish_length h.sha),
    List.drop_left' (sb_sha256_finish_length h.sha)]
  simp [List.map_map, Function.comp_def, xor_xor_self]

theorem zero_xor_eq (p : Nat) : Nat.xor 0 p = p := Nat.zero_xor p

theorem finish_mac (h : sb_hmac_sha256_state_t) (out : List Nat) :
    (sb_hmac_sha256_finish h out).2.take 32 =
      sb_sha256_finish
        ⟨((h.key.map fun b => Nat.xor b opad).take 64) ++ sb_sha256_finish h.sha⟩ := by
  rw [finish_eq]
  exact List.take_left' (sb_sha256_finish_length _)

/-- The aliased Key-Collapse computes the same state as outer-hashing the
outer-padded key followed by the inner digest, with the result zero-extended
into the key buffer, followed by the final reinit. -/
theorem finish_to_key_eq (s : sb_sha256_state_t) (k : List Nat) (hk : k.length = 32) :
    sb_hmac_sha256_finish_to_key ⟨s, k ++ List.replicate 32 0⟩ =
      sb_hmac_sha256_reinit
        ⟨⟨((k ++ List.replicate 32 0).map fun b => Nat.xor b opad) ++ sb_sha256_finish s⟩,
         sb_sha256_finish
           ⟨((k ++ List.replicate 32 0).map fun b => Nat.xor b opad) ++ sb_sha256_finish s⟩ ++
           List.replicate 32 0⟩ := by
  have hA : (List.map (fun b => Nat.xor b opad) k).length = 32 := by simp [hk]
  have hpad : List.map (fun b => Nat.xor b opad) (k ++ List.replicate 32 0) =
      List.map (fun b => Nat.xor b opad) k ++ List.replicate 32 opad := by
    rw [List.map_append, List.map_replicate, zero_xor_eq]
  unfold sb_hmac_sha256_finish_to_key
  simp only [sb_hmac_sha256_key_pad, sb_sha256_update, sb_sha256_init,
    SB_SHA256_SIZE, List.nil_append, hpad]
  have e1 : writeBytes
      (List.map (fun b => Nat.xor b opad) k ++ List.replicate 32 opad) 32
      (sb_sha256_finish s) =
      List.map (fun b => Nat.xor b opad) k ++ sb_sha256_finish s := by
    unfold writeBytes
    rw [List.take_left' hA, sb_sha256_finish_length,
      List.drop_eq_nil_of_le (by simp [hA]), List.append_nil]
  rw [e1]
  rw [List.take_left' hA]
  have e2 : writeBytes
      (List.map (fun b => Nat.xor b opad) k ++ sb_sha256_finish s) 0
      (List.replicate 32 opad) =
      List.replicate 32 opad ++ sb_sha256_finish s := by
    unfold writeBytes
    rw [List.take_zero, List.nil_append, List.length_replicate, Nat.zero_add,
      List.drop_left' hA]
  rw [e2]
  rw [List.take_left' (List.length_replicate 32 opad),
    List.drop_left' (List.length_replicate 32 opad),
    List.take_of_length_le (le_of_eq (sb_sha256_finish_length s))]
  have e3 : writeBytes (List.replicate 32 opad ++ sb_sha256_finish s) 0
      (sb_sha256_finish
        ⟨List.map (fun b => Nat.xor b opad) k ++ List.replicate 32 opad ++ sb_sha256_finish s⟩) =
      sb_sha256_finish
        ⟨List.map (fun b => Nat.xor b opad) k ++ List.replicate 32 opad ++ sb_sha256_finish s⟩ ++
        sb_sha256_finish s := by
    unfold writeBytes
    rw [List.take_zero, List.nil_append, Nat.zero_add, sb_sha256_finish_length,
      List.drop_left' (List.length_replicate 32 opad)]
  rw [e3]
  have e4 : writeBytes
      (sb_sha256_finish
        ⟨List.map (fun b => Nat.xor b opad) k ++ List.replicate 32 opad ++ sb_sha256_finish s⟩ ++
        sb_sha256_finish s) 32 (List.replicate 32 0) =
      sb_sha256_finish
        ⟨List.map (fun b => Nat.xor b opad) k ++ List.replicate 32 opad ++ sb_sha256_finish s⟩ ++
        List.replicate 32 0 := by
    unfold writeBytes
    rw [List.take_left' (sb_sha256_finish_length _), List.length_replicate,
      List.drop_eq_nil_of_le (by simp [sb_sha256_finish_length]), List.append_nil]
  rw [e4]

theorem finish_key (h : sb_hmac_sha256_state_t) (out : List Nat) :
    (sb_hmac_sha256_finish h out).1.key = h.key := by
  rw [finish_eq]

/-! ### Claims -/

/-- C7: applying `sb_hmac_sha256_key_pad` twice in succession with the same
constant leaves the key buffer (and whole state) exactly as it was, since XOR
with a constant byte is self-inverse, and the inner and outer pad constants
are the distinct standard values 0x36 and 0x5C. -/
theorem C7_key_pad_involutive (h : sb_hmac_sha256_state_t) (pad : Nat) :
    sb_hmac_sha256_key_pad (sb_hmac_sha256_key_pad h pad) pad = h ∧
    ipad = 0x36 ∧ opad = 0x5C ∧ ipad ≠ opad :=
  ⟨key_pad_key_pad h pad, rfl, rfl, by decide⟩

/-- C8: the state produced by `sb_hmac_sha256_init` depends only on the key
passed in, not on the prior contents of the state object, because init
memsets the entire structure before deriving the key buffer. -/
theorem C8_init_erases_prior_state (p1 p2 : sb_hmac_sha256_state_t) (key : List Nat) :
    sb_hmac_sha256_init p1 key = sb_hmac_sha256_init p2 key := rfl

/-- C9: `sb_hmac_sha256_update` modifies only the embedded hash engine; the
key buffer is byte-for-byte unchanged. -/
theorem C9_update_touches_only_engine (h : sb_hmac_sha256_state_t) (input : List Nat) :
    (sb_hmac_sha256_update h input).key = h.key := rfl

/-- C10: the 32-byte MAC written by `sb_hmac_sha256_finish` does not depend on
the prior contents of the caller-supplied output buffer, even though the
buffer is used as scratch for the inner digest first. -/
theorem C10_finish_ignores_output_prefill (h : sb_hmac_sha256_state_t)
    (o1 o2 : List Nat) :
    (sb_hmac_sha256_finish h o1).2.take 32 = (sb_hmac_sha256_finish h o2).2.take 32 := by
  rw [finish_mac, finish_mac]

/-- C4: streaming a message in chunks via repeated `sb_hmac_sha256_update`
calls, followed by `sb_hmac_sha256_finish`, gives the same result as one
update call with the whole concatenation. -/
theorem C4_chunk_independence (h : sb_hmac_sha256_state_t)
    (chunks : List (List Nat)) (out : List Nat) :
    sb_hmac_sha256_finish (chunks.foldl sb_hmac_sha256_update h) out =
      sb_hmac_sha256_finish (sb_hmac_sha256_update h chunks.flatten) out := by
  rw [foldl_update]

/-- C2: the one-shot `sb_hmac_sha256` reproduces the RFC 4231 test vectors:
key = 20 bytes of 0x0b with message "Hi There" gives MAC b0344c61…, and
key "Jefe" with message "what do ya want for nothing?" gives 5bdcc146…. -/
theorem C2_rfc4231_vectors (p : sb_hmac_sha256_state_t) :
    (sb_hmac_sha256 p TEST_K1 TEST_M1 (List.replicate 32 0)).2 = TEST_H1 ∧
    (sb_hmac_sha256 p TEST_K2 TEST_M2 (List.replicate 32 0)).2 = TEST_H2 := by
  have h1 : (sb_hmac_sha256 zeroState TEST_K1 TEST_M1 (List.replicate 32 0)).2 =
      TEST_H1 := by decide
  have h2 : (sb_hmac_sha256 zeroState TEST_K2 TEST_M2 (List.replicate 32 0)).2 =
      TEST_H2 := by decide
  exact ⟨h1, h2⟩

/-- C3: for keys longer than the 64-byte block, init stores `sha256(key)`
zero-extended in the key buffer, and the one-shot MAC with key `K` equals the
one-shot MAC with key `sha256(K)`. -/
theorem C3_long_key_equivalence (p : sb_hmac_sha256_state_t)
    (key m out : List Nat) (hl : 64 < key.length) :
    (sb_hmac_sha256_init p key).key = sha256 key ++ List.replicate 32 0 ∧
    sb_hmac_sha256 p key m out = sb_hmac_sha256 p (sha256 key) m out := by
  have hbuf : hmacKeyBuf key = sha256 key ++ List.replicate 32 0 := by
    unfold hmacKeyBuf
    rw [if_pos (by simpa [SB_SHA256_BLOCK_SIZE] using hl)]
  have hbuf2 : hmacKeyBuf (sha256 key) = sha256 key ++ List.replicate 32 0 := by
    unfold hmacKeyBuf
    rw [if_neg (by simp [SB_SHA256_BLOCK_SIZE, sha256_length]), sha256_length]
  have hinit : sb_hmac_sha256_init p key = sb_hmac_sha256_init p (sha256 key) := by
    rw [init_eq, init_eq, hbuf, hbuf2]
  constructor
  · rw [init_eq]
    exact hbuf
  · unfold sb_hmac_sha256
    rw [hinit]

/-- Witness for C3 at a concrete 65-byte key. -/
theorem C3_long_key_equivalence_witness :
    64 < (List.replicate 65 1).length ∧
    ((sb_hmac_sha256_init zeroState (List.replicate 65 1)).key =
        sha256 (List.replicate 65 1) ++ List.replicate 32 0 ∧
      sb_hmac_sha256 zeroState (List.replicate 65 1) TEST_M1 (List.replicate 32 0) =
        sb_hmac_sha256 zeroState (sha256 (List.replicate 65 1)) TEST_M1
          (List.replicate 32 0)) :=
  ⟨by decide,
   C3_long_key_equivalence zeroState (List.replicate 65 1) TEST_M1
     (List.replicate 32 0) (by decide)⟩

/-- C1: for a streaming-phase state whose key buffer holds a 32-byte key
followed by 32 zero bytes, `sb_hmac_sha256_finish_to_key` stores into the key
buffer the outer hash of (outer-padded key ‖ inner digest) — equal to the MAC
an independent, non-aliased `sb_hmac_sha256_finish` computes over the same
streamed bytes — with the second half zeroed, and ends by reinitializing the
object to stream under the new key. -/
theorem C1_finish_to_key_correct (h : sb_hmac_sha256_state_t) (k : List Nat)
    (hk : k.length = 32) (hkey : h.key = k ++ List.replicate 32 0) :
    (sb_hmac_sha256_finish_to_key h).key =
        sb_sha256_finish
          ⟨(h.key.map fun b => Nat.xor b opad) ++ sb_sha256_finish h.sha⟩ ++
          List.replicate 32 0 ∧
    (sb_hmac_sha256_finish_to_key h).key.take 32 =
        (sb_hmac_sha256_finish h (List.replicate 32 0)).2 ∧
    sb_hmac_sha256_finish_to_key h =
        sb_hmac_sha256_reinit ⟨sb_sha256_init, (sb_hmac_sha256_finish_to_key h).key⟩ := by
  obtain ⟨s, kb⟩ := h
  simp only at hkey
  subst hkey
  rw [finish_to_key_eq s k hk]
  refine ⟨?_, ?_, ?_⟩
  · rw [reinit_key]
  · rw [reinit_key, List.take_left' (sb_sha256_finish_length _), finish_eq]
    have ht : ((k ++ List.replicate 32 0).map fun b => Nat.xor b opad).take 64 =
        (k ++ List.replicate 32 0).map fun b => Nat.xor b opad :=
      List.take_of_length_le (by simp [hk])
    show _ = sb_sha256_finish _ ++ (List.replicate 32 0).drop 32
    rw [ht]
    simp [List.drop_replicate]
  · rw [reinit_key, reinit_eq, reinit_eq]

/-- Witness for C1 at the concrete 32-byte key 09 repeated. -/
theorem C1_finish_to_key_correct_witness :
    (List.replicate 32 9).length = 32 ∧
    (⟨⟨[]⟩, List.replicate 32 9 ++ List.replicate 32 0⟩ : sb_hmac_sha256_state_t).key =
      List.replicate 32 9 ++ List.replicate 32 0 ∧
    ((sb_hmac_sha256_finish_to_key
        ⟨⟨[]⟩, List.replicate 32 9 ++ List.replicate 32 0⟩).key =
        sb_sha256_finish
          ⟨((⟨⟨[]⟩, List.replicate 32 9 ++ List.replicate 32 0⟩ :
              sb_hmac_sha256_state_t).key.map fun b => Nat.xor b opad) ++
            sb_sha256_finish
              (⟨⟨[]⟩, List.replicate 32 9 ++ List.replicate 32 0⟩ :
                sb_hmac_sha256_state_t).sha⟩ ++
          List.replicate 32 0 ∧
      (sb_hmac_sha256_finish_to_key
          ⟨⟨[]⟩, List.replicate 32 9 ++ List.replicate 32 0⟩).key.take 32 =
        (sb_hmac_sha256_finish
          ⟨⟨[]⟩, List.replicate 32 9 ++ List.replicate 32 0⟩
          (List.replicate 32 0)).2 ∧
      sb_hmac_sha256_finish_to_key ⟨⟨[]⟩, List.replicate 32 9 ++ List.replicate 32 0⟩ =
        sb_hmac_sha256_reinit
          ⟨sb_sha256_init,
           (sb_hmac_sha256_finish_to_key
             ⟨⟨[]⟩, List.replicate 32 9 ++ List.replicate 32 0⟩).key⟩) :=
  ⟨by decide, rfl,
   C1_finish_to_key_correct ⟨⟨[]⟩, List.replicate 32 9 ++ List.replicate 32 0⟩
     (List.replicate 32 9) (by decide) rfl⟩

/-- C5: at the start and end of every public operation the key buffer is the
64-byte logical key zero-extended, never pad-mixed: init establishes it,
update / reinit / finish / the one-shot preserve it, and Key-Collapse leaves
a 32-byte key zero-extended to 64 bytes. -/
theorem C5_buffer_hygiene (p h : sb_hmac_sha256_state_t) (k m o : List Nat)
    (f : Fin 32 → Nat) :
    (sb_hmac_sha256_init p k).key =
        (if 64 < k.length then sha256 k ++ List.replicate 32 0
         else k ++ List.replicate (64 - k.length) 0) ∧
    (sb_hmac_sha256_init p k).key.length = 64 ∧
    (sb_hmac_sha256_update h m).key = h.key ∧
    (sb_hmac_sha256_reinit h).key = h.key ∧
    (sb_hmac_sha256_finish h o).1.key = h.key ∧
    (sb_hmac_sha256 p k m o).1.key = (sb_hmac_sha256_init p k).key ∧
    (sb_hmac_sha256_finish_to_key
        ⟨h.sha, List.ofFn f ++ List.replicate 32 0⟩).key.drop 32 =
      List.replicate 32 0 ∧
    (sb_hmac_sha256_finish_to_key
        ⟨h.sha, List.ofFn f ++ List.replicate 32 0⟩).key.length = 64 := by
  refine ⟨?_, ?_, rfl, reinit_key h, finish_key h o, ?_, ?_, ?_⟩
  · rw [init_eq]
    show hmacKeyBuf k = _
    unfold hmacKeyBuf SB_SHA256_BLOCK_SIZE
    rfl
  · rw [init_eq]
    exact hmacKeyBuf_length k
  · show (sb_hmac_sha256_finish (sb_hmac_sha256_update (sb_hmac_sha256_init p k) m) o).1.key = _
    rw [finish_key, update_key]
  · rw [finish_to_key_eq h.sha (List.ofFn f) (List.length_ofFn f), reinit_key]
    exact List.drop_left' (sb_sha256_finish_length _)
  · rw [finish_to_key_eq h.sha (List.ofFn f) (List.length_ofFn f), reinit_key]
    simp [sb_sha256_finish_length]

/-- C6: after `finish`, `reinit`, streaming the identical message again, and
`finish` again, the same MAC is produced; `finish` restores the key buffer to
its streaming-phase content, and leaves the engine holding the consumed
outer-hash input rather than reinitializing it. -/
theorem C6_finish_reinit_roundtrip (p : sb_hmac_sha256_state_t)
    (K M out1 out2 : List Nat) :
    (sb_hmac_sha256_finish
        (sb_hmac_sha256_update
          (sb_hmac_sha256_reinit
            (sb_hmac_sha256_finish
              (sb_hmac_sha256_update (sb_hmac_sha256_init p K) M) out1).1)
          M) out2).2.take 32 =
      (sb_hmac_sha256_finish
        (sb_hmac_sha256_update (sb_hmac_sha256_init p K) M) out1).2.take 32 ∧
    (sb_hmac_sha256_finish
        (sb_hmac_sha256_update (sb_hmac_sha256_init p K) M) out1).1.key =
      (sb_hmac_sha256_update (sb_hmac_sha256_init p K) M).key ∧
    (sb_hmac_sha256_finish
        (sb_hmac_sha256_update (sb_hmac_sha256_init p K) M) out1).1.sha.absorbed =
      (((sb_hmac_sha256_update (sb_hmac_sha256_init p K) M).key.map
          fun b => Nat.xor b opad).take 64) ++
        sb_sha256_finish (sb_hmac_sha256_update (sb_hmac_sha256_init p K) M).sha := by
  have hre : sb_hmac_sha256_update
      (sb_hmac_sha256_reinit
        (sb_hmac_sha256_finish
          (sb_hmac_sha256_update (sb_hmac_sha256_init p K) M) out1).1) M =
      sb_hmac_sha256_update (sb_hmac_sha256_init p K) M := by
    rw [init_eq, finish_eq, reinit_eq]
    simp [sb_hmac_sha256_update, sb_sha256_update]
  exact ⟨by rw [hre, finish_mac, finish_mac], by rw [finish_eq], by rw [finish_eq]⟩
